import Mathlib

/-!
Verification of the Runtime Workflow Execution Engine of the
`base_automation` addon: a DAG-based task orchestrator that instantiates
step instances from an action template, tracks per-step readiness based on
predecessor completion, executes steps with contextual data, and aggregates
step state into an overall workflow state.

The repository ships only the tests of this engine
(`addons/base_automation/tests/test_runtime_execution.py`,
`addons/base_automation/tests/test_webhook.py`); the model classes
`base.automation.runtime` and `base.automation.runtime.line` themselves are
not part of the source tree.  The definitions below are therefore modelled
from the specification (sections 3-4 and 6-8 of `spec.md`), and each
definition's doc comment records which missing piece of code it stands for.
-/

namespace AutomationRuntime

/-- Modelled from the spec: lifecycle state of a StepInstance
(`base.automation.runtime.line.state`, missing from the source tree):
`waiting / ready / done / error / cancel`. -/
inductive LineState
  | waiting
  | ready
  | done
  | error
  | cancel
deriving Repr, DecidableEq

/-- Modelled from the spec: lifecycle state of a RuntimeInstance
(`base.automation.runtime.state`, missing from the source tree):
`draft / in_progress / done / cancel`. -/
inductive RuntimeState
  | draft
  | in_progress
  | done
  | cancel
deriving Repr, DecidableEq

/-- Modelled from the spec: a StepInstance (`base.automation.runtime.line`,
missing from the source tree): identifier, originating action reference,
lifecycle state, error message (populated only in the `error` state) and the
set of predecessor StepInstance references, resolved to sibling steps within
the same RuntimeInstance. -/
structure StepInstance where
  id : Nat
  action_id : Nat
  state : LineState
  error_message : Option String
  predecessor_ids : List Nat
deriving Repr, DecidableEq

/-- Modelled from the spec: a RuntimeInstance (`base.automation.runtime`,
missing from the source tree): lifecycle state, target-context fields (a
required principal/partner reference, scalar business fields amount / date /
free-text reference, an optional multi-tenant company scope) and the owned
collection of StepInstances. -/
structure RuntimeInstance where
  state : RuntimeState
  partner_id : Option Nat
  amount : Int
  date : String
  reference : String
  multicompany_id : Option Nat
  line_ids : List StepInstance
deriving Repr, DecidableEq

/-- Modelled from the spec: a template-level ActionDefinition
(`ir.actions.server` rows with `usage = base_automation`, missing from the
source tree): identifier and the set of predecessor ActionDefinition
references within the same template. -/
structure ActionDefinition where
  id : Nat
  predecessor_ids : List Nat
deriving Repr, DecidableEq

/-- Look a sibling StepInstance up by identifier (the arena/index pattern of
the spec: predecessor edges are stored as stable identifiers within the
owning RuntimeInstance's step collection, resolved via lookup). -/
def getLine (ls : List StepInstance) (i : Nat) : Option StepInstance :=
  ls.find? (fun s => s.id == i)

/-- Whether the predecessor referenced by `p` resolves to a sibling
StepInstance whose state is `done`. -/
def predDone (ls : List StepInstance) (p : Nat) : Bool :=
  match getLine ls p with
  | some s => s.state == LineState.done
  | none => false

/-- Modelled from the spec: the DAG Resolver's `is_ready(step)` (missing
from the source tree): true iff the step's own state is none of
`done`/`cancel`/`error` and every predecessor is `done`. -/
def is_ready (ls : List StepInstance) (s : StepInstance) : Bool :=
  !(s.state == LineState.done || s.state == LineState.error
      || s.state == LineState.cancel)
    && s.predecessor_ids.all (fun p => predDone ls p)

/-- Modelled from the spec: the `waiting → ready` refresh applied to one
step during DAG re-evaluation: a `waiting` step whose readiness condition
holds is moved to `ready`; every other step is left unchanged. -/
def refreshLine (ls : List StepInstance) (s : StepInstance) : StepInstance :=
  if s.state == LineState.waiting && is_ready ls s then
    { s with state := LineState.ready }
  else s

/-- Modelled from the spec: DAG Resolver re-evaluation over the whole step
collection, triggered after a predecessor completes. -/
def refreshLines (ls : List StepInstance) : List StepInstance :=
  ls.map (refreshLine ls)

/-- Number of StepInstances of the runtime whose state is `done`. -/
def done_count (r : RuntimeInstance) : Nat :=
  (r.line_ids.filter (fun s => s.state == LineState.done)).length

/-- Total number of StepInstances of the runtime. -/
def total_count (r : RuntimeInstance) : Nat :=
  r.line_ids.length

/-- Modelled from the spec: the Progress Aggregator's `progress(runtime)`
(missing from the source tree): `round(100 * done_count / total_count)`,
and `0` when `total_count` is `0`. -/
def progress (r : RuntimeInstance) : Int :=
  if total_count r = 0 then 0
  else round ((100 * (done_count r : ℚ)) / (total_count r : ℚ))

/-- Modelled from the spec: the Progress Aggregator's
`progress_display(runtime)` (missing from the source tree): the string
`"{done_count}/{total_count} steps"` built from the exact integer counts. -/
def progress_display (r : RuntimeInstance) : String :=
  toString (done_count r) ++ "/" ++ toString (total_count r) ++ " steps"

/-- Modelled from the spec: the Progress Aggregator's
`maybe_autocomplete(runtime)` (missing from the source tree): when
`done_count = total_count` and the runtime is `in_progress` it transitions
the runtime to `done`; otherwise it changes nothing. -/
def step_autocomplete (r : RuntimeInstance) : RuntimeInstance :=
  if done_count r = total_count r ∧ r.state = RuntimeState.in_progress then
    { r with state := RuntimeState.done }
  else r

/-- Modelled from the spec: the engine's error taxonomy (missing from the
source tree); on the host platform every variant surfaces as a `UserError`
subclass. -/
inductive EngineError
  | precondition (msg : String)
  | noReadyStep
  | invalidState
  | execution (msg : String)
deriving Repr, DecidableEq

/-- Mark the step with identifier `i` as `done`, clearing its error
message. -/
def setDone (ls : List StepInstance) (i : Nat) : List StepInstance :=
  ls.map (fun s =>
    if s.id == i then { s with state := LineState.done, error_message := none }
    else s)

/-- Record an execution failure on the step with identifier `i`: state
becomes `error` and the collaborator's message is stored. -/
def setError (ls : List StepInstance) (i : Nat) (msg : String) :
    List StepInstance :=
  ls.map (fun s =>
    if s.id == i then
      { s with state := LineState.error, error_message := some msg }
    else s)

/-- Modelled from the spec: `action_mark_done` on one StepInstance (missing
from the source tree): valid only from `ready`; on success it sets the step
to `done`, re-runs the DAG Resolver over the siblings, and lets the Progress
Aggregator auto-complete the owning runtime. -/
def action_mark_done (r : RuntimeInstance) (i : Nat) :
    RuntimeInstance × Option EngineError :=
  match getLine r.line_ids i with
  | none => (r, some EngineError.invalidState)
  | some l =>
    if l.state = LineState.ready then
      (step_autocomplete { r with line_ids := refreshLines (setDone r.line_ids i) },
        none)
    else (r, some EngineError.invalidState)

/-- Values an execution-context entry can carry. -/
inductive CtxVal
  | nat (n : Nat)
  | int (i : Int)
  | str (s : String)
deriving Repr, DecidableEq

/-- Modelled from the spec: Step Executor context assembly (missing from the
source tree): the runtime's scalar fields under the well-known keys
`default_partner_id`, `default_amount` and `default_date`, plus
`target_company_id` exactly when a multi-tenant company scope is set. -/
def build_context (r : RuntimeInstance) : List (String × CtxVal) :=
  [("default_partner_id", CtxVal.nat (r.partner_id.getD 0)),
   ("default_amount", CtxVal.int r.amount),
   ("default_date", CtxVal.str r.date)]
  ++ (match r.multicompany_id with
      | some c => [("target_company_id", CtxVal.nat c)]
      | none => [])

/-- The steps of the runtime whose recorded state is `ready`, in
instantiation order (the deterministic tie-break of the spec). -/
def ready_lines (r : RuntimeInstance) : List StepInstance :=
  r.line_ids.filter (fun s => s.state == LineState.ready)

/-- Modelled from the spec: `action_next_step` (missing from the source
tree).  `exec` is the external action-execution collaborator: it receives an
action reference and the assembled context and either returns normally or
fails with a human-readable message.  The operation fails with a
precondition error unless the runtime is `in_progress`, fails with a
no-ready-step error when the ready set is empty, and otherwise executes the
first ready step: on collaborator success the step is marked done, on
collaborator failure the step records the error and the failure re-raises to
the caller. -/
def action_next_step (exec : Nat → List (String × CtxVal) → Except String Unit)
    (r : RuntimeInstance) : RuntimeInstance × Option EngineError :=
  if r.state = RuntimeState.in_progress then
    match ready_lines r with
    | [] => (r, some EngineError.noReadyStep)
    | l :: _ =>
      match exec l.action_id (build_context r) with
      | Except.ok _ => action_mark_done r l.id
      | Except.error msg =>
        ({ r with line_ids := setError r.line_ids l.id msg },
          some (EngineError.execution msg))
  else (r, some (EngineError.precondition ("Workflow is not in progress")))

/-- Initial state of a freshly materialized StepInstance: `ready` when it
has no predecessors, `waiting` otherwise. -/
def initState (preds : List Nat) : LineState :=
  match preds with
  | [] => LineState.ready
  | _ :: _ => LineState.waiting

/-- Modelled from the spec: materialization of one StepInstance from the
ActionDefinition at position `idx` of the template (missing from the source
tree).  Template-level predecessor references are remapped to sibling
StepInstance identifiers, which are the positions of the predecessor
actions within the template. -/
def instantiateLine (tmpl : List ActionDefinition) (idx : Nat)
    (a : ActionDefinition) : StepInstance :=
  let preds := (tmpl.enum.filter
    (fun p => a.predecessor_ids.contains p.2.id)).map (fun p => p.1)
  { id := idx
    action_id := a.id
    state := initState preds
    error_message := none
    predecessor_ids := preds }

/-- Modelled from the spec: materialization of the whole step collection
from the template, one StepInstance per ActionDefinition, in template
order. -/
def instantiateLines (tmpl : List ActionDefinition) : List StepInstance :=
  tmpl.enum.map (fun p => instantiateLine tmpl p.1 p.2)

/-- Modelled from the spec: `action_start` (missing from the source tree):
fails with a precondition error when the target partner is unset or the
template resolves to zero ActionDefinitions, leaving the runtime unchanged;
otherwise it materializes one StepInstance per ActionDefinition and sets the
runtime state to `in_progress`. -/
def action_start (tmpl : List ActionDefinition) (r : RuntimeInstance) :
    RuntimeInstance × Option EngineError :=
  if r.partner_id = none then
    (r, some (EngineError.precondition ("Please set a partner before starting")))
  else if tmpl = [] then
    (r, some (EngineError.precondition ("The automation has no actions to run")))
  else
    ({ r with state := RuntimeState.in_progress
              line_ids := instantiateLines tmpl }, none)

/-- Whether a step state is terminal (`done`, `error` or `cancel`);
cancellation leaves terminal steps untouched. -/
def terminalLine (s : LineState) : Bool :=
  s == LineState.done || s == LineState.error || s == LineState.cancel

/-- Transition every non-terminal step of the collection to `cancel`. -/
def cancelLines (ls : List StepInstance) : List StepInstance :=
  ls.map (fun s =>
    if terminalLine s.state then s else { s with state := LineState.cancel })

/-- Modelled from the spec: `action_cancel` (missing from the source tree):
a no-op when the runtime is already `done` or `cancel`; otherwise it
transitions every non-terminal StepInstance to `cancel` and then sets the
runtime state to `cancel`. -/
def action_cancel (r : RuntimeInstance) : RuntimeInstance :=
  if r.state = RuntimeState.done ∨ r.state = RuntimeState.cancel then r
  else { r with state := RuntimeState.cancel
                line_ids := cancelLines r.line_ids }

/-- Modelled from the spec: the externally-triggered (webhook) automation
record (`base.automation` with `trigger = on_webhook`, missing from the
source tree): an active flag, the outcome of the record-getter expression
(`none` when the expression yields an empty recordset) and the attached
server actions. -/
structure Automation where
  active : Bool
  record_getter : Option Nat
  action_ids : List Nat
deriving Repr, DecidableEq

/-- Modelled from the spec: `_execute_webhook` (missing from the source
tree): resolves the target record through the record-getter expression, and
when no record is yielded or the yielded record does not exist it fails with
a validation error before any workflow RuntimeInstance or StepInstance is
created; otherwise it runs the attached actions against the record, with no
check of the automation's active flag anywhere on this path.  On success the
identifiers of the executed actions are returned. -/
def execute_webhook (recordExists : Nat → Bool) (a : Automation) :
    Except String (List Nat) :=
  match a.record_getter with
  | none => Except.error ("Webhook did not match any record to run on")
  | some rid =>
    if recordExists rid then Except.ok a.action_ids
    else Except.error ("Webhook did not match any record to run on")

/-! ## Helper lemmas shared by the claim theorems -/

theorem done_count_eq_total_iff (r : RuntimeInstance) :
    done_count r = total_count r ↔
      ∀ l ∈ r.line_ids, l.state = LineState.done := by
  unfold done_count total_count
  constructor
  · intro h l hl
    have hself := List.filter_eq_self.mp
      ((List.filter_sublist r.line_ids).eq_of_length h)
    simpa using hself l hl
  · intro h
    rw [List.filter_eq_self.mpr]
    intro a ha
    simpa using h a ha

theorem step_autocomplete_line_ids (r : RuntimeInstance) :
    (step_autocomplete r).line_ids = r.line_ids := by
  unfold step_autocomplete
  split <;> rfl

theorem step_autocomplete_state_of_done (r : RuntimeInstance)
    (h : (step_autocomplete r).state = RuntimeState.done) :
    r.state = RuntimeState.done ∨
      (r.state = RuntimeState.in_progress ∧
        done_count r = total_count r) := by
  unfold step_autocomplete at h
  by_cases hc : done_count r = total_count r ∧ r.state = RuntimeState.in_progress
  · exact Or.inr ⟨hc.2, hc.1⟩
  · rw [if_neg hc] at h
    exact Or.inl h

theorem mark_done_done_char (r : RuntimeInstance) (i : Nat)
    (h : (action_mark_done r i).1.state = RuntimeState.done)
    (hne : r.state ≠ RuntimeState.done) :
    r.state = RuntimeState.in_progress ∧
      ∀ l ∈ (action_mark_done r i).1.line_ids,
        l.state = LineState.done := by
  cases hget : getLine r.line_ids i with
  | none =>
    have heq : action_mark_done r i = (r, some EngineError.invalidState) := by
      unfold action_mark_done
      rw [hget]
    rw [heq] at h
    exact absurd h hne
  | some l =>
    by_cases hl : l.state = LineState.ready
    · have heq : action_mark_done r i =
          (step_autocomplete
            { r with line_ids := refreshLines (setDone r.line_ids i) },
            none) := by
        unfold action_mark_done
        rw [hget]
        dsimp only
        rw [if_pos hl]
      rw [heq] at h ⊢
      have hch := step_autocomplete_state_of_done _ h
      cases hch with
      | inl hdone => exact absurd hdone hne
      | inr hc =>
        refine ⟨hc.1, ?_⟩
        intro x hx
        rw [step_autocomplete_line_ids] at hx
        exact (done_count_eq_total_iff _).mp hc.2 x hx
    · have heq : action_mark_done r i = (r, some EngineError.invalidState) := by
        unfold action_mark_done
        rw [hget]
        dsimp only
        rw [if_neg hl]
      rw [heq] at h
      exact absurd h hne

/-! ## Claim theorems -/

/-- C1: for every StepInstance, the derived boolean `is_ready` is true iff
every predecessor resolves to a sibling step with state `done` and the
step's own state is none of `done`, `error`, `cancel`; and, during DAG
re-evaluation, a `waiting` step transitions to `ready` exactly when all of
its predecessors are done. -/
theorem c1_is_ready_iff (ls : List StepInstance) (s : StepInstance) :
    (is_ready ls s = true ↔
      ((∀ p ∈ s.predecessor_ids, predDone ls p = true) ∧
        s.state ≠ LineState.done ∧ s.state ≠ LineState.error ∧
        s.state ≠ LineState.cancel)) ∧
    (s.state = LineState.waiting →
      ((refreshLine ls s).state = LineState.ready ↔
        ∀ p ∈ s.predecessor_ids, predDone ls p = true)) := by
  constructor
  · cases hs : s.state <;> simp [is_ready, hs, List.all_eq_true, and_comm]
  · intro hw
    constructor
    · intro hr
      by_contra hnot
      have hall : s.predecessor_ids.all (fun p => predDone ls p) = false := by
        cases hb : s.predecessor_ids.all (fun p => predDone ls p) with
        | false => rfl
        | true => exact absurd (List.all_eq_true.mp hb) hnot
      have hfix : refreshLine ls s = s := by
        simp [refreshLine, is_ready, hall]
      rw [hfix, hw] at hr
      exact LineState.noConfusion hr
    · intro hall
      have hall' : s.predecessor_ids.all (fun p => predDone ls p) = true :=
        List.all_eq_true.mpr hall
      simp [refreshLine, is_ready, hw, hall']

/-- C1 witness: in a concrete two-step collection where the predecessor is
done, the waiting successor transitions to ready. -/
theorem c1_witness :
    (refreshLine
      [⟨0, 10, LineState.done, none, []⟩, ⟨1, 11, LineState.waiting, none, [0]⟩]
      ⟨1, 11, LineState.waiting, none, [0]⟩).state = LineState.ready :=
  ((c1_is_ready_iff
      [⟨0, 10, LineState.done, none, []⟩, ⟨1, 11, LineState.waiting, none, [0]⟩]
      ⟨1, 11, LineState.waiting, none, [0]⟩).2 rfl).mpr (by decide)

/-- Demo runtime in progress with three steps, the first `d` of them done;
used to exercise the progress sequence of claim C4. -/
def demoRuntime (d : Nat) : RuntimeInstance :=
  { state := RuntimeState.in_progress
    partner_id := some 1
    amount := 1000
    date := "2025-10-20"
    reference := ""
    multicompany_id := none
    line_ids := (List.range 3).map (fun i =>
      { id := i
        action_id := i
        state := if i < d then LineState.done else LineState.ready
        error_message := none
        predecessor_ids := [] }) }

/-- C4: progress equals `round(100 * done_count / total_count)` as an
integer (`0` when `total_count` is `0`), and the progress display is the
string built from the exact unrounded counts; with three steps the progress
sequence is 0, 33, 67, 100. -/
theorem c4_progress_spec (r : RuntimeInstance) :
    (total_count r = 0 → progress r = 0) ∧
    (total_count r ≠ 0 →
      progress r = round ((100 * (done_count r : ℚ)) / (total_count r : ℚ))) ∧
    progress_display r =
      toString (done_count r) ++ "/" ++ toString (total_count r) ++ " steps" ∧
    progress (demoRuntime 0) = 0 ∧ progress (demoRuntime 1) = 33 ∧
    progress (demoRuntime 2) = 67 ∧ progress (demoRuntime 3) = 100 ∧
    progress_display (demoRuntime 1) = "1/3 steps" := by
  refine ⟨fun h => by simp [progress, h], fun h => by simp [progress, h],
    rfl, ?_, ?_, ?_, ?_, rfl⟩
  · have h1 : done_count (demoRuntime 0) = 0 := rfl
    have h2 : total_count (demoRuntime 0) = 3 := rfl
    unfold progress
    rw [h1, h2]
    norm_num [round_eq]
  · have h1 : done_count (demoRuntime 1) = 1 := rfl
    have h2 : total_count (demoRuntime 1) = 3 := rfl
    unfold progress
    rw [h1, h2]
    norm_num [round_eq]
  · have h1 : done_count (demoRuntime 2) = 2 := rfl
    have h2 : total_count (demoRuntime 2) = 3 := rfl
    unfold progress
    rw [h1, h2]
    norm_num [round_eq]
  · have h1 : done_count (demoRuntime 3) = 3 := rfl
    have h2 : total_count (demoRuntime 3) = 3 := rfl
    unfold progress
    rw [h1, h2]
    norm_num [round_eq]

/-- C4 witness: the zero-total clause evaluated on a concrete empty
runtime. -/
theorem c4_witness :
    progress (demoRuntime 0) = 0 :=
  (c4_progress_spec (demoRuntime 0)).2.2.2.1

/-- C6: `next_step` fails with a precondition error whenever the runtime is
not `in_progress`, and fails with a no-ready-step error whenever the ready
set is empty; in both cases the runtime is returned unchanged. -/
theorem c6_next_step_preconditions
    (exec : Nat → List (String × CtxVal) → Except String Unit)
    (r : RuntimeInstance) :
    (r.state ≠ RuntimeState.in_progress →
      ∃ msg, action_next_step exec r =
        (r, some (EngineError.precondition msg))) ∧
    (r.state = RuntimeState.in_progress → ready_lines r = [] →
      action_next_step exec r = (r, some EngineError.noReadyStep)) := by
  constructor
  · intro h
    exact ⟨_, by unfold action_next_step; rw [if_neg h]⟩
  · intro h hr
    simp [action_next_step, h, hr]

/-- C6 witness: a concrete draft runtime rejected by `next_step` with a
precondition error. -/
theorem c6_witness :
    ∃ msg,
      action_next_step (fun _ _ => Except.ok ())
        { state := RuntimeState.draft, partner_id := some 1, amount := 0,
          date := "", reference := "", multicompany_id := none,
          line_ids := [] } =
      ({ state := RuntimeState.draft, partner_id := some 1, amount := 0,
          date := "", reference := "", multicompany_id := none,
          line_ids := [] }, some (EngineError.precondition msg)) :=
  (c6_next_step_preconditions (fun _ _ => Except.ok ())
    { state := RuntimeState.draft, partner_id := some 1, amount := 0,
      date := "", reference := "", multicompany_id := none,
      line_ids := [] }).1 (by decide)

/-- C7: cancellation is idempotent: on a `done` or `cancel` runtime it is a
no-op returning the record unchanged; from any other state it moves every
non-terminal step to `cancel` and sets the runtime state to `cancel`, so
cancelling twice equals cancelling once. -/
theorem c7_cancel_idempotent (r : RuntimeInstance) :
    action_cancel (action_cancel r) = action_cancel r ∧
    ((r.state = RuntimeState.done ∨ r.state = RuntimeState.cancel) →
      action_cancel r = r) ∧
    (r.state ≠ RuntimeState.done → r.state ≠ RuntimeState.cancel →
      (action_cancel r).state = RuntimeState.cancel ∧
      ∀ l ∈ r.line_ids, terminalLine l.state = false →
        { l with state := LineState.cancel } ∈ (action_cancel r).line_ids) := by
  by_cases hd : r.state = RuntimeState.done ∨ r.state = RuntimeState.cancel
  · have h1 : action_cancel r = r := by
      unfold action_cancel
      rw [if_pos hd]
    refine ⟨by rw [h1, h1], fun _ => h1, fun h2 h3 => ?_⟩
    cases hd with
    | inl h => exact absurd h h2
    | inr h => exact absurd h h3
  · have h1 : action_cancel r =
        { r with state := RuntimeState.cancel
                 line_ids := cancelLines r.line_ids } := by
      unfold action_cancel
      rw [if_neg hd]
    refine ⟨?_, fun h => absurd h hd, fun _ _ => ⟨by rw [h1], ?_⟩⟩
    · rw [h1]
      unfold action_cancel
      rw [if_pos (Or.inr rfl)]
    · intro l hl hterm
      rw [h1]
      refine List.mem_map.mpr ⟨l, hl, ?_⟩
      simp [hterm]

/-- C7 witness: cancelling a concrete in-progress runtime with one waiting
step cancels that step. -/
theorem c7_witness :
    { id := 0, action_id := 5, state := LineState.cancel,
      error_message := none, predecessor_ids := ([] : List Nat) } ∈
      (action_cancel
        { state := RuntimeState.in_progress, partner_id := some 1,
          amount := 0, date := "", reference := "",
          multicompany_id := none,
          line_ids := [⟨0, 5, LineState.waiting, none, []⟩] }).line_ids :=
  ((c7_cancel_idempotent
    { state := RuntimeState.in_progress, partner_id := some 1,
      amount := 0, date := "", reference := "",
      multicompany_id := none,
      line_ids := [⟨0, 5, LineState.waiting, none, []⟩] }).2.2
    (by decide) (by decide)).2
    ⟨0, 5, LineState.waiting, none, []⟩ (by decide) (by decide)

/-- C8: the assembled execution context maps the runtime's scalar fields
under the keys `default_partner_id`, `default_amount` and `default_date`,
and contains `target_company_id` exactly when the runtime carries a
multi-tenant company scope. -/
theorem c8_context_keys (r : RuntimeInstance) :
    (build_context r).lookup ("default_partner_id") =
      some (CtxVal.nat (r.partner_id.getD 0)) ∧
    (build_context r).lookup ("default_amount") =
      some (CtxVal.int r.amount) ∧
    (build_context r).lookup ("default_date") =
      some (CtxVal.str r.date) ∧
    (build_context r).lookup ("target_company_id") =
      Option.map CtxVal.nat r.multicompany_id := by
  cases hm : r.multicompany_id <;>
    simp [build_context, List.lookup, hm]

/-- C2: while a runtime is `in_progress` the Progress Aggregator moves it to
`done` the instant the done count equals the total count, and leaves it
`in_progress` whenever some step is not yet `done` (in particular while any
step is in `error` or still `waiting`/`ready`); moreover auto-completion is
the only path to `done`: no engine operation yields a `done` runtime except
from an already `done` runtime or through the autocomplete condition. -/
theorem c2_autocomplete_only_path (tmpl : List ActionDefinition)
    (exec : Nat → List (String × CtxVal) → Except String Unit)
    (r : RuntimeInstance) (i : Nat) :
    (r.state = RuntimeState.in_progress →
      ((done_count r = total_count r →
          (step_autocomplete r).state = RuntimeState.done) ∧
        ((∃ l ∈ r.line_ids, l.state ≠ LineState.done) →
          (step_autocomplete r).state = RuntimeState.in_progress))) ∧
    ((action_mark_done r i).1.state = RuntimeState.done →
        r.state ≠ RuntimeState.done →
      r.state = RuntimeState.in_progress ∧
        ∀ l ∈ (action_mark_done r i).1.line_ids,
          l.state = LineState.done) ∧
    ((action_next_step exec r).1.state = RuntimeState.done →
        r.state ≠ RuntimeState.done →
      r.state = RuntimeState.in_progress ∧
        ∀ l ∈ (action_next_step exec r).1.line_ids,
          l.state = LineState.done) ∧
    ((action_start tmpl r).1.state = RuntimeState.done →
      r.state = RuntimeState.done) ∧
    ((action_cancel r).state = RuntimeState.done →
      r.state = RuntimeState.done) := by
  refine ⟨?_, mark_done_done_char r i, ?_, ?_, ?_⟩
  · intro hst
    constructor
    · intro hdt
      unfold step_autocomplete
      rw [if_pos ⟨hdt, hst⟩]
    · rintro ⟨l, hl, hlnd⟩
      have hne : ¬(done_count r = total_count r ∧
          r.state = RuntimeState.in_progress) := by
        rintro ⟨hdt, _⟩
        exact hlnd ((done_count_eq_total_iff r).mp hdt l hl)
      unfold step_autocomplete
      rw [if_neg hne, hst]
  · intro h hne
    by_cases hst : r.state = RuntimeState.in_progress
    · cases hr : ready_lines r with
      | nil =>
        have heq : action_next_step exec r = (r, some EngineError.noReadyStep) := by
          unfold action_next_step
          rw [if_pos hst, hr]
        rw [heq] at h
        exact absurd h hne
      | cons l rest =>
        cases hex : exec l.action_id (build_context r) with
        | ok u =>
          have heq : action_next_step exec r = action_mark_done r l.id := by
            unfold action_next_step
            rw [if_pos hst, hr]
            dsimp only
            rw [hex]
          rw [heq] at h ⊢
          exact mark_done_done_char r l.id h hne
        | error msg =>
          have heq : action_next_step exec r =
              ({ r with line_ids := setError r.line_ids l.id msg },
                some (EngineError.execution msg)) := by
            unfold action_next_step
            rw [if_pos hst, hr]
            dsimp only
            rw [hex]
          rw [heq] at h
          exact absurd h hne
    · have heq : action_next_step exec r =
          (r, some (EngineError.precondition ("Workflow is not in progress"))) := by
        unfold action_next_step
        rw [if_neg hst]
      rw [heq] at h
      exact absurd h hne
  · intro h
    unfold action_start at h
    by_cases hp : r.partner_id = none
    · rw [if_pos hp] at h
      exact h
    · rw [if_neg hp] at h
      by_cases ht : tmpl = []
      · rw [if_pos ht] at h
        exact h
      · rw [if_neg ht] at h
        exact absurd h (by intro hc; exact RuntimeState.noConfusion hc)
  · intro h
    unfold action_cancel at h
    by_cases hd : r.state = RuntimeState.done ∨ r.state = RuntimeState.cancel
    · rw [if_pos hd] at h
      exact h
    · rw [if_neg hd] at h
      exact absurd h (by intro hc; exact RuntimeState.noConfusion hc)

/-- C2 witness: a concrete in-progress runtime whose single step is done
auto-completes. -/
theorem c2_witness :
    (step_autocomplete
      { state := RuntimeState.in_progress, partner_id := some 1, amount := 0,
        date := "", reference := "", multicompany_id := none,
        line_ids := [⟨0, 5, LineState.done, none, []⟩] }).state =
      RuntimeState.done :=
  ((c2_autocomplete_only_path [] (fun _ _ => Except.ok ())
      { state := RuntimeState.in_progress, partner_id := some 1, amount := 0,
        date := "", reference := "", multicompany_id := none,
        line_ids := [⟨0, 5, LineState.done, none, []⟩] } 0).1 rfl).1 rfl

theorem instantiateLine_state (tmpl : List ActionDefinition) (idx : Nat)
    (a : ActionDefinition) :
    (instantiateLine tmpl idx a).state =
      initState ((instantiateLine tmpl idx a).predecessor_ids) := rfl

theorem mem_instantiateLine_preds (tmpl : List ActionDefinition)
    (idx j : Nat) (a : ActionDefinition) :
    j ∈ (instantiateLine tmpl idx a).predecessor_ids ↔
      ∃ hj : j < tmpl.length,
        (tmpl.get ⟨j, hj⟩).id ∈ a.predecessor_ids := by
  unfold instantiateLine
  simp only [List.mem_map, List.mem_filter]
  constructor
  · rintro ⟨⟨k, x⟩, ⟨hmem, hcont⟩, hkj⟩
    dsimp only at hkj hcont
    subst hkj
    obtain ⟨hk, hx⟩ := List.getElem?_eq_some.mp
      (List.mk_mem_enum_iff_getElem?.mp hmem)
    refine ⟨hk, ?_⟩
    rw [List.get_eq_getElem, hx]
    simpa using hcont
  · rintro ⟨hj, hmem⟩
    refine ⟨(j, tmpl.get ⟨j, hj⟩), ⟨?_, ?_⟩, rfl⟩
    · exact List.mk_mem_enum_iff_getElem?.mpr
        (List.getElem?_eq_some.mpr ⟨hj, by rw [List.get_eq_getElem]⟩)
    · simpa using hmem

theorem instantiateLines_get (tmpl : List ActionDefinition) (idx : Nat)
    (h : idx < tmpl.length) :
    ∃ hl : idx < (instantiateLines tmpl).length,
      (instantiateLines tmpl).get ⟨idx, hl⟩ =
        instantiateLine tmpl idx (tmpl.get ⟨idx, h⟩) := by
  have hlen : (instantiateLines tmpl).length = tmpl.length := by
    unfold instantiateLines
    rw [List.length_map, List.enum_length]
  refine ⟨by rw [hlen]; exact h, ?_⟩
  unfold instantiateLines
  rw [List.get_eq_getElem, List.getElem_map, List.getElem_enum,
    List.get_eq_getElem]

/-- C3: `start` fails with a precondition error when the target partner is
unset or the template has zero actions, leaving the runtime unchanged (in
particular still `draft`); otherwise it creates one StepInstance per
ActionDefinition with predecessor edges remapped to sibling step
identifiers, steps without predecessors start `ready`, steps with at least
one predecessor start `waiting`, and the runtime becomes `in_progress`. -/
theorem c3_start_spec (tmpl : List ActionDefinition) (r : RuntimeInstance) :
    ((r.partner_id = none ∨ tmpl = []) →
      ∃ msg, action_start tmpl r =
        (r, some (EngineError.precondition msg))) ∧
    (r.partner_id ≠ none → tmpl ≠ [] →
      (action_start tmpl r).2 = none ∧
      (action_start tmpl r).1.state = RuntimeState.in_progress ∧
      (action_start tmpl r).1.line_ids.length = tmpl.length ∧
      (∀ l ∈ (action_start tmpl r).1.line_ids,
        (l.predecessor_ids = [] → l.state = LineState.ready) ∧
        (l.predecessor_ids ≠ [] → l.state = LineState.waiting)) ∧
      (∀ idx (h : idx < tmpl.length),
        ∃ hl : idx < (action_start tmpl r).1.line_ids.length,
          ((action_start tmpl r).1.line_ids.get ⟨idx, hl⟩).action_id =
            (tmpl.get ⟨idx, h⟩).id ∧
          ∀ j, (j ∈ ((action_start tmpl r).1.line_ids.get
              ⟨idx, hl⟩).predecessor_ids ↔
            ∃ hj : j < tmpl.length,
              (tmpl.get ⟨j, hj⟩).id ∈ (tmpl.get ⟨idx, h⟩).predecessor_ids))) := by
  constructor
  · intro h
    by_cases hp : r.partner_id = none
    · exact ⟨_, by unfold action_start; rw [if_pos hp]⟩
    · have ht : tmpl = [] := by
        cases h with
        | inl h1 => exact absurd h1 hp
        | inr h2 => exact h2
      exact ⟨_, by unfold action_start; rw [if_neg hp, if_pos ht]⟩
  · intro hp ht
    have heq : action_start tmpl r =
        ({ r with state := RuntimeState.in_progress
                  line_ids := instantiateLines tmpl }, none) := by
      unfold action_start
      rw [if_neg hp, if_neg ht]
    rw [heq]
    refine ⟨rfl, rfl, ?_, ?_, ?_⟩
    · show (instantiateLines tmpl).length = tmpl.length
      unfold instantiateLines
      rw [List.length_map, List.enum_length]
    · intro l hl
      obtain ⟨p, hpm, hpe⟩ := List.mem_map.mp hl
      constructor
      · intro hpred
        rw [← hpe, instantiateLine_state, hpe, hpred]
        rfl
      · intro hpred
        rw [← hpe, instantiateLine_state, hpe]
        cases hpd : l.predecessor_ids with
        | nil => exact absurd hpd hpred
        | cons x xs => rfl
    · intro idx h
      obtain ⟨hl, heq2⟩ := instantiateLines_get tmpl idx h
      refine ⟨hl, ?_, ?_⟩
      · rw [heq2]
        rfl
      · intro j
        rw [heq2]
        exact mem_instantiateLine_preds tmpl idx j (tmpl.get ⟨idx, h⟩)

/-- Template for the C3 witness: two actions, the second depending on the
first. -/
def c3Tmpl : List ActionDefinition := [⟨10, []⟩, ⟨11, [10]⟩]

/-- Draft runtime for the C3 witness. -/
def c3Run : RuntimeInstance :=
  { state := RuntimeState.draft, partner_id := some 7, amount := 1000,
    date := "2025-10-20", reference := "", multicompany_id := none,
    line_ids := [] }

/-- C3 witness: starting a concrete two-action runtime yields an
in-progress runtime. -/
theorem c3_witness :
    (action_start c3Tmpl c3Run).1.state = RuntimeState.in_progress :=
  ((c3_start_spec c3Tmpl c3Run).2 (by decide) (by decide)).2.1

/-- C5: when `next_step` executes a step whose action raises, the error
propagates to the caller, the step's state becomes `error` with the
original message stored in `error_message`, and the owning runtime remains
`in_progress`. -/
theorem c5_error_propagation
    (exec : Nat → List (String × CtxVal) → Except String Unit)
    (r : RuntimeInstance) (l : StepInstance) (rest : List StepInstance)
    (msg : String)
    (hst : r.state = RuntimeState.in_progress)
    (hready : ready_lines r = l :: rest)
    (hexec : exec l.action_id (build_context r) = Except.error msg) :
    action_next_step exec r =
      ({ r with line_ids := setError r.line_ids l.id msg },
        some (EngineError.execution msg)) ∧
    (action_next_step exec r).1.state = RuntimeState.in_progress ∧
    ∀ s ∈ (action_next_step exec r).1.line_ids,
      s.id = l.id → s.state = LineState.error ∧ s.error_message = some msg := by
  have heq : action_next_step exec r =
      ({ r with line_ids := setError r.line_ids l.id msg },
        some (EngineError.execution msg)) := by
    unfold action_next_step
    rw [if_pos hst, hready]
    dsimp only
    rw [hexec]
  refine ⟨heq, by rw [heq]; exact hst, ?_⟩
  rw [heq]
  intro s hs hsid
  unfold setError at hs
  obtain ⟨s0, hs0m, hs0e⟩ := List.mem_map.mp hs
  by_cases hid : (s0.id == l.id) = true
  · rw [if_pos hid] at hs0e
    rw [← hs0e]
    exact ⟨rfl, rfl⟩
  · rw [if_neg hid] at hs0e
    rw [← hs0e] at hsid
    exact absurd (beq_iff_eq.mpr hsid) hid

/-- Runtime for the C5 witness: one ready step. -/
def c5Run : RuntimeInstance :=
  { state := RuntimeState.in_progress, partner_id := some 7, amount := 1000,
    date := "2025-10-20", reference := "", multicompany_id := none,
    line_ids := [⟨0, 30, LineState.ready, none, []⟩] }

/-- C5 witness: a concrete failing action leaves the runtime
`in_progress`. -/
theorem c5_witness :
    (action_next_step (fun _ _ => Except.error ("Test error message"))
      c5Run).1.state = RuntimeState.in_progress :=
  (c5_error_propagation (fun _ _ => Except.error ("Test error message"))
    c5Run ⟨0, 30, LineState.ready, none, []⟩ [] ("Test error message")
    rfl rfl rfl).2.1

/-- C9: in the webhook entry path, when the record getter yields no record
or a record that does not exist, a validation error is raised and the
workflow is never instantiated (no successful outcome exists, so no
RuntimeInstance or StepInstance is created). -/
theorem c9_webhook_validation (recordExists : Nat → Bool) (a : Automation)
    (h : a.record_getter = none ∨
      ∃ rid, a.record_getter = some rid ∧ recordExists rid = false) :
    (∃ msg, execute_webhook recordExists a = Except.error msg) ∧
    ∀ acts, execute_webhook recordExists a ≠ Except.ok acts := by
  have herr : ∃ msg, execute_webhook recordExists a = Except.error msg := by
    cases h with
    | inl hn => exact ⟨_, by unfold execute_webhook; rw [hn]⟩
    | inr hr =>
      obtain ⟨rid, hg, hex⟩ := hr
      exact ⟨_, by
        unfold execute_webhook
        rw [hg]
        dsimp only
        rw [if_neg (by simp [hex])]⟩
  refine ⟨herr, ?_⟩
  intro acts hcon
  obtain ⟨msg, hmsg⟩ := herr
  rw [hmsg] at hcon
  exact Except.noConfusion hcon

/-- C9 witness: a concrete automation whose record getter yields no record
fails with a validation error. -/
theorem c9_witness :
    ∃ msg, execute_webhook (fun _ => true)
      { active := true, record_getter := none, action_ids := [1, 2] } =
      Except.error msg :=
  (c9_webhook_validation (fun _ => true)
    { active := true, record_getter := none, action_ids := [1, 2] }
    (Or.inl rfl)).1

/-- C10: `_execute_webhook` performs no active-flag check: invoking it on an
automation whose active flag is false behaves exactly as on the active one,
and with a resolvable existing record it still executes the attached
actions. -/
theorem c10_inactive_executes (recordExists : Nat → Bool) (a : Automation) :
    execute_webhook recordExists { a with active := false } =
      execute_webhook recordExists a ∧
    ∀ rid, a.record_getter = some rid → recordExists rid = true →
      execute_webhook recordExists { a with active := false } =
        Except.ok a.action_ids := by
  constructor
  · rfl
  · intro rid hg hex
    unfold execute_webhook
    dsimp only
    rw [hg]
    dsimp only
    rw [if_pos hex]

/-- C10 witness: a concrete inactive automation with an existing target
record still executes its two actions. -/
theorem c10_witness :
    execute_webhook (fun _ => true)
      { ({ active := true, record_getter := some 5,
           action_ids := [1, 2] } : Automation) with active := false } =
      Except.ok [1, 2] :=
  (c10_inactive_executes (fun _ => true)
    { active := true, record_getter := some 5, action_ids := [1, 2] }).2
    5 rfl rfl

end AutomationRuntime
